import Mathlib

attribute [local semireducible] Rat.mul Rat.inv Rat.add Rat.sub Rat.ofScientific

/-! Verification of the AutoMoLi occupancy-driven-lighting controller
(`apps/automoli/automoli.py`, version 0.6.1) against its design
specification.

The Python class `AutoMoLi` reacts to motion events and drives lights.
We embed the handler methods as pure Lean functions over:

* `Env`    — a snapshot of the external Home Assistant world as read
  through `get_state`.  `reading e` models `float(get_state(e))`, where
  `none` means the state string does not parse as a number, i.e.
  `float` raises `ValueError`; `hueGroupAttr e` models the truthiness
  of `get_state(entity_id=e, attribute="is_hue_group")`; `brightness e`
  models `get_state(e, "brightness")`.
* `Config` — the per-room configuration fields set up in `initialize`
  (`self.lights`, `self.sensors[...]`, `self.thresholds[...]`,
  `self.disable_switch_entity`, `self.fadeSetting`,
  `self.states["motion_off"]`) together with the currently active
  daytime profile `self.active`. Sensor/light collections are kept as
  lists in configuration/iteration order.
* `TState` — the timer bookkeeping: `handle` is `self._handle`,
  `pending` the outstanding scheduler timers created by `run_in`
  (fresh id paired with the requested delay), `next` a fresh-id
  counter. `cancel_timer` on an unknown or absent handle is a no-op,
  matching the scheduler's idempotent cancellation.

Side effects (`call_service`, `create_task(self.fade ...)`) are
collected in a command list; an uncaught Python exception is recorded
as an `err` value together with the state at the moment it was raised.
-/

/-- Brightness/scene target of a daytime profile: `self.active["light_setting"]`
is either a string (scene), an int (brightness percent) or something
else (which makes `lights_on` raise `ValueError`). -/
inductive LightSetting where
  | str : String → LightSetting
  | int : Int → LightSetting
  | other : LightSetting
deriving DecidableEq

/-- The active daytime profile `self.active`. -/
structure Profile where
  delay : Int
  light_setting : LightSetting
  is_hue_group : Bool
deriving DecidableEq

/-- Snapshot of the external world (`get_state` and friends). -/
structure Env where
  stateOf : String → Option String
  attrOf : String → String → Option String
  hueGroupAttr : String → Bool
  friendlyName : String → String
  reading : String → Option ℚ
  brightness : String → Option ℚ

/-- Per-room configuration created by `initialize`. -/
structure Config where
  lights : List String
  motion : List String
  humidity : List String
  illuminance : List String
  humidity_threshold : Option ℚ
  illuminance_threshold : Option ℚ
  disable_switch_entity : List String
  fade_on : ℚ
  fade_off : ℚ
  motion_off : Option String
  active : Profile

/-- Timer bookkeeping state: `handle` mirrors `self._handle`, `pending`
the timers outstanding in the scheduler (id, requested delay), `next` a
fresh-id counter incremented by each `run_in`. -/
structure TState where
  handle : Option Nat
  pending : List (Nat × Int)
  next : Nat
deriving DecidableEq

/-- Commands sent to the outside world: service calls and launched fade
tasks. -/
inductive Cmd where
  | hueScene : String → String → Cmd
  | turnOn : String → Cmd
  | bright : String → Int → Cmd
  | fadeUp : String → Int → ℚ → Cmd
  | fadeDown : String → ℚ → Cmd
deriving DecidableEq

/-- Result of running a handler: final timer state, emitted commands,
and `err ≠ none` when an uncaught Python exception escaped. -/
structure Out where
  st : TState
  cmds : List Cmd
  err : Option String
deriving DecidableEq

/-- Model of the scheduler's `cancel_timer`: removes the named timer if
it is still pending; cancelling `None` or an already-fired handle does
nothing. -/
def cancel_timer (s : TState) (h : Option Nat) : TState :=
  match h with
  | none => s
  | some id => { s with pending := s.pending.filter (fun p => p.1 != id) }

/-- Model of `run_in(self.lights_off, self.active["delay"])`: registers a
fresh timer and returns its handle. -/
def run_in (cfg : Config) (s : TState) : TState × Nat :=
  ({ s with pending := s.pending ++ [(s.next, cfg.active.delay)], next := s.next + 1 },
    s.next)

/-- `AutoMoLi.refresh_timer` (lines 337-341): cancel the current handle,
then schedule a new `lights_off` timer unless the active delay is 0.
When the delay is 0 the stale handle value is kept, exactly as in the
source (only `cancel_timer` is called, `self._handle` is not reset). -/
def refresh_timer (cfg : Config) (s : TState) : TState :=
  let s1 := cancel_timer s s.handle
  if cfg.active.delay != 0 then
    let r := run_in cfg s1
    { r.1 with handle := some r.2 }
  else s1

/-- Floor of a rational value (computable). -/
def ratFloor (q : ℚ) : Int :=
  Int.fdiv q.num q.den

/-- Ceiling of a rational value, as `math.ceil` (computable). -/
def ratCeil (q : ℚ) : Int :=
  -(ratFloor (-q))

/-- Python `int()` on a rational value: truncation toward zero
(`num / den` in truncated integer division). -/
def pyInt (q : ℚ) : Int :=
  q.num / (q.den : Int)

/-- Python `range(start, stop, step)` for a nonzero step. -/
def pyRange (start stop step : Int) : List Int :=
  let n : Nat :=
    if 0 < step then ((stop - start + step - 1) / step).toNat
    else ((start - stop + (-step) - 1) / (-step)).toNat
  (List.range n).map (fun i => start + step * i)

/-- `AutoMoLi.fade` (lines 243-267): the sequence of `turn_on` brightness
commands issued by one fade task. The step is
`int(math.ceil((target - init if up else -init) / (duration / 0.2)))`;
if nonzero, a `range` loop of intermediate commands runs, and in every
case one final command with brightness `int(targetBrightness)` is
issued. The model assumes a nonzero `duration` (with `duration = 0` the
Python code raises `ZeroDivisionError` before issuing any command). -/
def fade (env : Env) (entity direction : String) (targetBrightnessPct duration : ℚ) :
    List Cmd :=
  let targetBrightness : ℚ := targetBrightnessPct * 255 / 100
  let adjFrequency : ℚ := 2 / 10
  let adjPoints : ℚ := duration / adjFrequency
  let initBrightness : ℚ := (env.brightness entity).getD 0
  let step : Int :=
    ratCeil ((if direction = "up" then targetBrightness - initBrightness
      else (-1) * initBrightness) / adjPoints)
  (if step != 0 then
    (pyRange (pyInt initBrightness) (pyInt targetBrightness) step).map
      (fun b => Cmd.bright entity b)
   else []) ++ [Cmd.bright entity (pyInt targetBrightness)]

/-- Python `str.split` on a single separator character (always returns
at least one part). -/
def pySplit (sep : Char) : List Char → List (List Char)
  | [] => [[]]
  | c :: rest =>
    let r := pySplit sep rest
    if c = sep then [] :: r
    else (c :: r.headD []) :: r.tail

/-- Python `str.strip`: drop whitespace from both ends. -/
def pyStrip (l : List Char) : List Char :=
  ((l.dropWhile Char.isWhitespace).reverse.dropWhile Char.isWhitespace).reverse

/-- Attribute loop of `eval_disable_switch_conf` (lines 229-235): walk
the `att, attStat` parts in order, succeed on the first matching
attribute (a condition expecting the literal string "None" also matches
an absent attribute), return `none` when an entry does not split into
exactly two parts (Python unpack `ValueError`). -/
def evalAttrs (env : Env) (entity : String) : List (List Char) → Option Bool
  | [] => some false
  | attConf :: rest =>
    match (pySplit ',' attConf).map (fun p => String.mk (pyStrip p)) with
    | [att, attStat] =>
      let currAtt := env.attrOf entity att
      if currAtt == some attStat || (currAtt == none && attStat == "None") then
        some true
      else evalAttrs env entity rest
    | _ => none

/-- `AutoMoLi.eval_disable_switch_conf` (lines 206-241): one veto rule
given as a `;`-separated line, the first part `entity, expectedState`,
further parts attribute conditions. `none` models the Python unpack
`ValueError` on a malformed part. -/
def eval_disable_switch_conf (env : Env) (confLine : String) : Option Bool :=
  let conf := pySplit ';' confLine.data
  match (pySplit ',' (conf.headD [])).map (fun p => String.mk (pyStrip p)) with
  | [entity, disableStat] =>
    if env.stateOf entity == some disableStat then
      if conf.tail.isEmpty then some true
      else evalAttrs env entity conf.tail
    else some false
  | _ => none

/-- The disable loop at the head of `motion_event` (316-319) and
`lights_off` (431-434): evaluate rules in order, return on the first
firing rule; a rule that raises propagates the exception. -/
def isDisabled (env : Env) : List String → Option Bool
  | [] => some false
  | line :: rest =>
    match eval_disable_switch_conf env line with
    | none => none
    | some true => some true
    | some false => isDisabled env rest

/-- The humidity list comprehension of `lights_off` (lines 443-447):
collect, in sensor order, the sensors whose reading is ≥ the threshold;
an unparsable reading raises `ValueError` (there is no try/except in
this comprehension). -/
def humidityMatches (env : Env) (t : ℚ) : List String → Except String (List String)
  | [] => .ok []
  | sensor :: rest =>
    match env.reading sensor with
    | none => .error ("ValueError")
    | some v =>
      match humidityMatches env t rest with
      | .error e => .error e
      | .ok l => .ok (if t ≤ v then sensor :: l else l)

/-- The humidity blocker selection of `lights_off` (lines 442-448):
guarded by the truthiness of the configured threshold (absent or 0 means
no evaluation at all), then `blocker.pop() if blocker else None`, i.e.
the last element of the match list. -/
def humidityBlocker (cfg : Config) (env : Env) : Except String (Option String) :=
  match cfg.humidity_threshold with
  | none => .ok none
  | some t =>
    if t != 0 then
      match humidityMatches env t cfg.humidity with
      | .error e => .error e
      | .ok l => .ok l.getLast?
    else .ok none

/-- Python truthiness of the optional blocker sensor name (`if blocker:`
at line 451). -/
def truthyS : Option String → Bool
  | none => false
  | some s => s != ""

/-- `AutoMoLi.lights_off` (lines 427-470): disable-rule gate, humidity
blocker (refresh the timer and keep the lights when it fires), else
cancel the timer and launch a fade-down task per light when some light
is on. -/
def lights_off (cfg : Config) (env : Env) (s : TState) : Out :=
  match isDisabled env cfg.disable_switch_entity with
  | none => { st := s, cmds := [], err := some ("ValueError") }
  | some true => { st := s, cmds := [], err := none }
  | some false =>
    match humidityBlocker cfg env with
    | .error e => { st := s, cmds := [], err := some e }
    | .ok blocker =>
      if truthyS blocker then
        { st := refresh_timer cfg s, cmds := [], err := none }
      else
        let s1 := cancel_timer s s.handle
        if cfg.lights.any (fun entity => env.stateOf entity == some ("on")) then
          { st := s1
            cmds := cfg.lights.map (fun entity => Cmd.fadeDown entity cfg.fade_off)
            err := none }
        else
          { st := s1, cmds := [], err := none }

/-- The illuminance sensor loop of `lights_on` (lines 346-356): build the
blocker list in sensor order; the first unparsable reading is caught and
makes the whole method return (`none` here). -/
def illuminanceLoop (env : Env) (t : ℚ) : List String → Option (List String)
  | [] => some []
  | sensor :: rest =>
    match env.reading sensor with
    | none => none
    | some v =>
      match illuminanceLoop env t rest with
      | none => none
      | some l => some (if t ≤ v then sensor :: l else l)

/-- The illuminance gate of `lights_on` (lines 345-362): evaluated only
when the configured threshold is truthy; `false` when a reading fails to
parse (caught, early return) or the blocker list is non-empty. -/
def illuminanceOk (cfg : Config) (env : Env) : Bool :=
  match cfg.illuminance_threshold with
  | none => true
  | some t =>
    if t != 0 then
      match illuminanceLoop env t cfg.illuminance with
      | none => false
      | some blocker => blocker.isEmpty
    else true

/-- `AutoMoLi.lights_on` (lines 343-425): illuminance gate (threshold
truthy, parse failure or a blocking sensor aborts with no action), then
dispatch on the active profile's light setting: scene string (hue group
or plain turn-on per light), brightness 0 (delegates to `lights_off`),
positive brightness (plain turn-on for switches, a fade-up task
otherwise), anything else raises `ValueError`. -/
def lights_on (cfg : Config) (env : Env) (s : TState) : Out :=
  if !(illuminanceOk cfg env) then { st := s, cmds := [], err := none }
  else
    match cfg.active.light_setting with
    | .str setting =>
      { st := s
        cmds := cfg.lights.map (fun entity =>
          if cfg.active.is_hue_group && env.hueGroupAttr entity then
            Cmd.hueScene (env.friendlyName entity) setting
          else
            Cmd.turnOn (if setting.startsWith ("scene.") then setting else entity))
        err := none }
    | .int n =>
      if n == 0 then lights_off cfg env s
      else
        { st := s
          cmds := cfg.lights.map (fun entity =>
            if entity.startsWith ("switch.") then Cmd.turnOn entity
            else Cmd.fadeUp entity n cfg.fade_on)
          err := none }
    | .other => { st := s, cmds := [], err := some ("ValueError") }

/-- Body of `AutoMoLi.motion_event` up to the final refresh (lines
305-333): disable gate, then `lights_on` when no light is on. The
boolean is true when the method returned early (veto) or an exception
escaped, in which case the trailing refresh of `motion_event` must not
run. -/
def motion_event_core (cfg : Config) (env : Env) (s : TState) : Out × Bool :=
  match isDisabled env cfg.disable_switch_entity with
  | none => ({ st := s, cmds := [], err := some ("ValueError") }, true)
  | some true => ({ st := s, cmds := [], err := none }, true)
  | some false =>
    if cfg.lights.any (fun light => env.stateOf light == some ("on")) then
      ({ st := s, cmds := [], err := none }, false)
    else
      let o := lights_on cfg env s
      (o, o.err.isSome)

/-- `AutoMoLi.motion_event` (lines 305-335): the core body followed by
`refresh_timer`, which runs only when the event is not
"state_changed_detection". -/
def motion_event (cfg : Config) (env : Env) (event : String) (s : TState) : Out :=
  match motion_event_core cfg env s with
  | (o, true) => o
  | (o, false) =>
    if event != "state_changed_detection" then
      { o with st := refresh_timer cfg o.st }
    else o

/-- `AutoMoLi.motion_detected` (lines 292-303): cancel the current timer
if a handle is set, then run `motion_event` with the synthetic
"state_changed_detection" event. -/
def motion_detected (cfg : Config) (env : Env) (s : TState) : Out :=
  let s1 := if s.handle.isSome then cancel_timer s s.handle else s
  motion_event cfg env ("state_changed_detection") s1

/-- `AutoMoLi.motion_cleared` (lines 275-290): refresh the timer when all
motion sensors read the configured off state, otherwise cancel a
pending timer. -/
def motion_cleared (cfg : Config) (env : Env) (s : TState) : Out :=
  if cfg.motion.all (fun sensor => env.stateOf sensor == cfg.motion_off) then
    { st := refresh_timer cfg s, cmds := [], err := none }
  else if s.handle.isSome then
    { st := cancel_timer s s.handle, cmds := [], err := none }
  else
    { st := s, cmds := [], err := none }

/-- Events a zone can receive: a continuous-sensor detection, a
continuous-sensor clear, a discrete Xiaomi motion event, and the firing
of a pending timer (which removes it from the scheduler and runs
`lights_off`). -/
inductive Ev where
  | detected : Ev
  | cleared : Ev
  | xiaomi : Ev
  | timerFire : Ev
deriving DecidableEq

/-- One step of the zone under an event, with the world snapshot `env`
at the moment the callback runs. -/
def step (cfg : Config) (env : Env) (e : Ev) (s : TState) : TState :=
  match e with
  | .detected => (motion_detected cfg env s).st
  | .cleared => (motion_cleared cfg env s).st
  | .xiaomi => (motion_event cfg env ("xiaomi_aqara.motion") s).st
  | .timerFire =>
    match s.pending with
    | [] => s
    | _ :: rest => (lights_off cfg env { s with pending := rest }).st

/-- Run a sequence of events. -/
def run (cfg : Config) (evs : List (Ev × Env)) (s : TState) : TState :=
  evs.foldl (fun st pr => step cfg pr.2 pr.1 st) s

/-- Run a sequence of continuous-sensor "detected" events only. -/
def runDetected (cfg : Config) (envs : List Env) (s : TState) : TState :=
  envs.foldl (fun st e => (motion_detected cfg e st).st) s

/-- The timer invariant: at most one pending timer, and if one is
pending then `handle` points at it. -/
def TInvB (s : TState) : Bool :=
  match s.pending with
  | [] => true
  | [p] => s.handle == some p.1
  | _ => false

/-! Helper lemmas: which timer states a handler can leave behind. -/

theorem lights_off_st_cases (cfg : Config) (env : Env) (s : TState) :
    (lights_off cfg env s).st = s ∨ (lights_off cfg env s).st = refresh_timer cfg s ∨
      (lights_off cfg env s).st = cancel_timer s s.handle := by
  unfold lights_off
  split
  · exact Or.inl rfl
  · exact Or.inl rfl
  · split
    · exact Or.inl rfl
    · split
      · exact Or.inr (Or.inl rfl)
      · split
        · exact Or.inr (Or.inr rfl)
        · exact Or.inr (Or.inr rfl)

theorem lights_on_st_cases (cfg : Config) (env : Env) (s : TState) :
    (lights_on cfg env s).st = s ∨ lights_on cfg env s = lights_off cfg env s := by
  unfold lights_on
  split
  · exact Or.inl rfl
  · split
    · exact Or.inl rfl
    · split
      · exact Or.inr rfl
      · exact Or.inl rfl
    · exact Or.inl rfl

theorem motion_event_core_st_cases (cfg : Config) (env : Env) (s : TState) :
    ((motion_event_core cfg env s).1).st = s ∨
      (motion_event_core cfg env s).1 = lights_on cfg env s := by
  unfold motion_event_core
  split
  · exact Or.inl rfl
  · exact Or.inl rfl
  · split
    · exact Or.inl rfl
    · exact Or.inr rfl

theorem motion_event_st_cases (cfg : Config) (env : Env) (event : String) (s : TState) :
    (motion_event cfg env event s).st = ((motion_event_core cfg env s).1).st ∨
      (motion_event cfg env event s).st =
        refresh_timer cfg ((motion_event_core cfg env s).1).st := by
  unfold motion_event
  split
  · rename_i heq
    exact Or.inl (by rw [heq])
  · rename_i heq
    split
    · exact Or.inr (by rw [heq])
    · exact Or.inl (by rw [heq])

theorem next_cancel_timer (s : TState) (h : Option Nat) :
    (cancel_timer s h).next = s.next := by
  cases h <;> rfl

theorem pending_cancel_timer_nil (s : TState) (h : Option Nat)
    (hp : s.pending = []) : (cancel_timer s h).pending = [] := by
  cases h <;> simp [cancel_timer, hp]

theorem next_refresh_timer (cfg : Config) (s : TState)
    (h : cfg.active.delay = 0) : (refresh_timer cfg s).next = s.next := by
  simp [refresh_timer, h, next_cancel_timer]

theorem next_lights_off (cfg : Config) (env : Env) (s : TState)
    (h : cfg.active.delay = 0) : ((lights_off cfg env s).st).next = s.next := by
  rcases lights_off_st_cases cfg env s with hc | hc | hc <;> rw [hc]
  · exact next_refresh_timer cfg s h
  · exact next_cancel_timer s s.handle

theorem next_lights_on (cfg : Config) (env : Env) (s : TState)
    (h : cfg.active.delay = 0) : ((lights_on cfg env s).st).next = s.next := by
  rcases lights_on_st_cases cfg env s with hc | hc
  · rw [hc]
  · rw [hc]
    exact next_lights_off cfg env s h

theorem next_motion_event_core (cfg : Config) (env : Env) (s : TState)
    (h : cfg.active.delay = 0) :
    (((motion_event_core cfg env s).1).st).next = s.next := by
  rcases motion_event_core_st_cases cfg env s with hc | hc
  · rw [hc]
  · rw [hc]
    exact next_lights_on cfg env s h

theorem next_motion_event (cfg : Config) (env : Env) (event : String) (s : TState)
    (h : cfg.active.delay = 0) :
    ((motion_event cfg env event s).st).next = s.next := by
  rcases motion_event_st_cases cfg env event s with hc | hc <;> rw [hc]
  · exact next_motion_event_core cfg env s h
  · rw [next_refresh_timer cfg _ h]
    exact next_motion_event_core cfg env s h

theorem next_motion_detected (cfg : Config) (env : Env) (s : TState)
    (h : cfg.active.delay = 0) :
    ((motion_detected cfg env s).st).next = s.next := by
  unfold motion_detected
  split
  · rw [next_motion_event cfg env _ _ h, next_cancel_timer]
  · exact next_motion_event cfg env _ _ h

theorem next_motion_cleared (cfg : Config) (env : Env) (s : TState)
    (h : cfg.active.delay = 0) :
    ((motion_cleared cfg env s).st).next = s.next := by
  unfold motion_cleared
  split
  · simp [next_refresh_timer _ _ h]
  · split
    · simp [next_cancel_timer]
    · rfl

theorem next_step (cfg : Config) (env : Env) (e : Ev) (s : TState)
    (h : cfg.active.delay = 0) : (step cfg env e s).next = s.next := by
  cases e with
  | detected => exact next_motion_detected cfg env s h
  | cleared => exact next_motion_cleared cfg env s h
  | xiaomi => exact next_motion_event cfg env _ s h
  | timerFire =>
    show (match s.pending with
      | [] => s
      | _ :: rest => (lights_off cfg env { s with pending := rest }).st).next = s.next
    cases s.pending with
    | nil => rfl
    | cons p rest => exact next_lights_off cfg env { s with pending := rest } h

/-- Claim C4: if the active profile's delay equals 0 then no inactivity
timer is ever scheduled: over every sequence of motion / cleared /
discrete / timer-fire events, the scheduler's fresh-timer counter never
moves, i.e. `run_in` is never invoked (`refresh_timer` only schedules
when the delay is nonzero). -/
theorem C4_zero_delay_never_schedules (cfg : Config) (h : cfg.active.delay = 0)
    (evs : List (Ev × Env)) (s : TState) :
    (run cfg evs s).next = s.next := by
  induction evs generalizing s with
  | nil => rfl
  | cons pr rest ih =>
    show (run cfg rest (step cfg pr.2 pr.1 s)).next = s.next
    rw [ih (step cfg pr.2 pr.1 s), next_step cfg pr.2 pr.1 s h]

/-- Concrete environment used by witnesses: one light that is on, two
humidity sensors reading 70 and 80, one illuminance sensor that does
not parse, a guard switch that is on. -/
def envW : Env :=
  { stateOf := fun e =>
      if e = "light.x" then some ("on")
      else if e = "switch.guard" then some ("on")
      else if e = "binary_sensor.motion_sensor_a" then some ("off")
      else none
    attrOf := fun _ _ => none
    hueGroupAttr := fun _ => false
    friendlyName := fun e => e
    reading := fun e =>
      if e = "sensor.humidity_1" then some 70
      else if e = "sensor.humidity_2" then some 80
      else none
    brightness := fun _ => none }

/-- Concrete configuration used by witnesses: one light, one continuous
motion sensor, delay 150, brightness profile 100. -/
def cfgW : Config :=
  { lights := ["light.x"]
    motion := ["binary_sensor.motion_sensor_a"]
    humidity := ["sensor.humidity_1", "sensor.humidity_2"]
    illuminance := []
    humidity_threshold := none
    illuminance_threshold := none
    disable_switch_entity := []
    fade_on := 3
    fade_off := 3
    motion_off := some ("off")
    active := { delay := 150, light_setting := .int 100, is_hue_group := false } }

/-- Claim C4, witness: a zero-delay profile over a concrete event
sequence schedules nothing. -/
theorem C4_zero_delay_never_schedules_witness :
    (run { cfgW with active := { delay := 0, light_setting := .int 100, is_hue_group := false } }
        [(.detected, envW), (.cleared, envW), (.xiaomi, envW), (.timerFire, envW)]
        { handle := some 0, pending := [(0, 150)], next := 1 }).next = 1 :=
  C4_zero_delay_never_schedules _ rfl _ _

/-! Timer-invariant lemmas for claim C1. -/

theorem TInvB_length (s : TState) (h : TInvB s = true) : s.pending.length ≤ 1 := by
  unfold TInvB at h
  rcases hp : s.pending with _ | ⟨p, _ | ⟨q, t⟩⟩ <;> simp [hp] at h ⊢

theorem TInvB_of_pending_nil (s : TState) (h : s.pending = []) : TInvB s = true := by
  unfold TInvB
  rw [h]

theorem pending_cancel_self (s : TState) (h : TInvB s = true) :
    (cancel_timer s s.handle).pending = [] := by
  unfold TInvB at h
  rcases hp : s.pending with _ | ⟨p, _ | ⟨q, t⟩⟩ <;> rw [hp] at h
  · exact pending_cancel_timer_nil s s.handle hp
  · cases hs : s.handle with
    | none => rw [hs] at h; simp at h
    | some a =>
      rw [hs] at h
      simp only [Option.some.injEq, beq_iff_eq] at h
      subst h
      simp [cancel_timer, hp, hs]
  · simp at h

theorem pending_nil_of_handle_none (s : TState) (h : TInvB s = true)
    (hh : s.handle = none) : s.pending = [] := by
  have h2 := pending_cancel_self s h
  rw [hh] at h2
  simpa [cancel_timer] using h2

theorem TInvB_refresh_timer (cfg : Config) (s : TState) (h : TInvB s = true) :
    TInvB (refresh_timer cfg s) = true := by
  unfold refresh_timer
  split
  · unfold TInvB run_in
    simp [pending_cancel_self s h]
  · exact TInvB_of_pending_nil _ (pending_cancel_self s h)

theorem TInvB_lights_off (cfg : Config) (env : Env) (s : TState)
    (h : TInvB s = true) : TInvB ((lights_off cfg env s).st) = true := by
  rcases lights_off_st_cases cfg env s with hc | hc | hc <;> rw [hc]
  · exact h
  · exact TInvB_refresh_timer cfg s h
  · exact TInvB_of_pending_nil _ (pending_cancel_self s h)

theorem TInvB_lights_on (cfg : Config) (env : Env) (s : TState)
    (h : TInvB s = true) : TInvB ((lights_on cfg env s).st) = true := by
  rcases lights_on_st_cases cfg env s with hc | hc
  · rw [hc]; exact h
  · rw [hc]; exact TInvB_lights_off cfg env s h

theorem TInvB_motion_event_core (cfg : Config) (env : Env) (s : TState)
    (h : TInvB s = true) : TInvB (((motion_event_core cfg env s).1).st) = true := by
  rcases motion_event_core_st_cases cfg env s with hc | hc
  · rw [hc]; exact h
  · rw [hc]; exact TInvB_lights_on cfg env s h

theorem TInvB_motion_event (cfg : Config) (env : Env) (event : String) (s : TState)
    (h : TInvB s = true) : TInvB ((motion_event cfg env event s).st) = true := by
  rcases motion_event_st_cases cfg env event s with hc | hc <;> rw [hc]
  · exact TInvB_motion_event_core cfg env s h
  · exact TInvB_refresh_timer cfg _ (TInvB_motion_event_core cfg env s h)

theorem TInvB_motion_detected (cfg : Config) (env : Env) (s : TState)
    (h : TInvB s = true) : TInvB ((motion_detected cfg env s).st) = true := by
  unfold motion_detected
  split
  · exact TInvB_motion_event cfg env _ _
      (TInvB_of_pending_nil _ (pending_cancel_self s h))
  · exact TInvB_motion_event cfg env _ _ h

/-- Claim C1: over every sequence of continuous-sensor "detected" events
(no intervening "cleared"), the timer discipline is preserved — every
scheduling operation (`refresh_timer`) first cancels the current
handle, so from a state satisfying the one-pending-timer invariant the
zone never holds two outstanding timers. -/
theorem C1_at_most_one_pending_timer (cfg : Config) (envs : List Env) (s : TState)
    (h : TInvB s = true) :
    TInvB (runDetected cfg envs s) = true ∧
      (runDetected cfg envs s).pending.length ≤ 1 := by
  have main : ∀ envs s, TInvB s = true → TInvB (runDetected cfg envs s) = true := by
    intro envs
    induction envs with
    | nil => intro s hs; exact hs
    | cons e rest ih =>
      intro s hs
      exact ih _ (TInvB_motion_detected cfg e s hs)
  exact ⟨main envs s h, TInvB_length _ (main envs s h)⟩

/-- Claim C1, witness: two consecutive detected events from a state with
one pending timer. -/
theorem C1_at_most_one_pending_timer_witness :
    TInvB (runDetected cfgW [envW, envW] { handle := some 0, pending := [(0, 150)], next := 1 }) = true ∧
      (runDetected cfgW [envW, envW] { handle := some 0, pending := [(0, 150)], next := 1 }).pending.length ≤ 1 :=
  C1_at_most_one_pending_timer cfgW [envW, envW] _ (by decide)

/-- Claim C2, counterexample: a continuous-sensor "detected" event with
no veto, a nonzero active delay and the light already on leaves NO
pending timer and allocates none (`next` unchanged) — the handler
cancels the pending timer and the trailing `refresh_timer` of
`motion_event` is skipped precisely for the "state_changed_detection"
event, so the claim "the detected path always refreshes the timer
afterwards" is false here. -/
theorem C2_detected_does_not_refresh_counterexample :
    isDisabled envW cfgW.disable_switch_entity = some false ∧
      cfgW.active.delay = 150 ∧
      envW.stateOf ("light.x") = some ("on") ∧
      (motion_detected cfgW envW { handle := some 0, pending := [(0, 150)], next := 1 }).st.pending = [] ∧
      (motion_detected cfgW envW { handle := some 0, pending := [(0, 150)], next := 1 }).st.next = 1 := by
  refine ⟨by decide, by decide, by decide, by decide, by decide⟩

/-- Claim C2 as amended: the continuous "detected" handler cancels any
pending timer and then behaves as the discrete event handler with the
trailing refresh skipped — when no disable rule fires and a light is
already on it leaves no pending timer and schedules none — whereas the
discrete (Xiaomi) path under the same conditions always ends by
refreshing the timer. -/
theorem C2_detected_vs_discrete_refresh (cfg : Config) (env : Env) (s : TState)
    (hinv : TInvB s = true)
    (hd : isDisabled env cfg.disable_switch_entity = some false)
    (hon : cfg.lights.any (fun light => env.stateOf light == some ("on")) = true) :
    (motion_detected cfg env s).st.pending = [] ∧
      (motion_detected cfg env s).st.next = s.next ∧
      motion_event cfg env ("xiaomi_aqara.motion") s =
        { st := refresh_timer cfg s, cmds := [], err := none } := by
  have hcore : ∀ s1 : TState, motion_event_core cfg env s1 =
      ({ st := s1, cmds := [], err := none }, false) := by
    intro s1
    unfold motion_event_core
    rw [hd, hon]
    rfl
  have hdet : motion_detected cfg env s =
      { st := (if s.handle.isSome then cancel_timer s s.handle else s), cmds := [], err := none } := by
    unfold motion_detected motion_event
    simp only [hcore]
    simp
  refine ⟨?_, ?_, ?_⟩
  · rw [hdet]
    by_cases hh : s.handle.isSome = true
    · simp only [hh, if_true]
      exact pending_cancel_self s hinv
    · simp only [hh, if_false]
      have hnone : s.handle = none := by
        cases hs : s.handle
        · rfl
        · rw [hs] at hh; simp at hh
      exact pending_nil_of_handle_none s hinv hnone
  · rw [hdet]
    by_cases hh : s.handle.isSome = true <;> simp [hh, next_cancel_timer]
  · unfold motion_event
    rw [hcore]
    rfl

/-- Claim C2 as amended, witness: concrete room with the light on. -/
theorem C2_detected_vs_discrete_refresh_witness :
    (motion_detected cfgW envW { handle := some 0, pending := [(0, 150)], next := 1 }).st.pending = [] ∧
      (motion_detected cfgW envW { handle := some 0, pending := [(0, 150)], next := 1 }).st.next = 1 ∧
      motion_event cfgW envW ("xiaomi_aqara.motion") { handle := some 0, pending := [(0, 150)], next := 1 } =
        { st := refresh_timer cfgW { handle := some 0, pending := [(0, 150)], next := 1 }, cmds := [], err := none } :=
  C2_detected_vs_discrete_refresh cfgW envW _ (by decide) (by decide) (by decide)

/-- Claim C3, counterexample: ramping up to 1% over 3 s from an unknown
initial brightness, the last command sets brightness
`int(1 * 255 / 100) = 2`, while `round(1 * 255 / 100) = 3` — the code
truncates (Python `int()`), it does not round. -/
theorem C3_final_brightness_counterexample :
    (fade envW ("light.x") ("up") 1 3).getLast? = some (Cmd.bright ("light.x") 2) ∧
      round ((1 : ℚ) * 255 / 100) = (3 : ℤ) ∧ (2 : ℤ) ≠ 3 := by
  refine ⟨by decide, by decide, by decide⟩

/-- Claim C3 as amended: for every fade call (any light, direction,
target percentage and initial brightness) with positive duration, the
last command issued sets the device brightness to exactly
`int(targetPercent * 255 / 100)` — truncation toward zero, not
rounding — and this final command is issued regardless of how many
intermediate steps ran, including zero. -/
theorem C3_final_brightness_truncated (env : Env) (entity direction : String)
    (targetBrightnessPct duration : ℚ) (hdur : 0 < duration) :
    (fade env entity direction targetBrightnessPct duration).getLast? =
      some (Cmd.bright entity (pyInt (targetBrightnessPct * 255 / 100))) := by
  unfold fade
  exact List.getLast?_concat _

/-- Claim C3 as amended, witness: fade down to 0% over 3 s. -/
theorem C3_final_brightness_truncated_witness :
    (fade envW ("light.x") ("down") 0 3).getLast? =
      some (Cmd.bright ("light.x") (pyInt ((0 : ℚ) * 255 / 100))) :=
  C3_final_brightness_truncated envW ("light.x") ("down") 0 3 (by norm_num)

/-! Helper lemmas for the threshold blockers. -/

/-- The humidity match predicate: reading parses and is ≥ threshold. -/
def humidityPred (env : Env) (t : ℚ) (sensor : String) : Bool :=
  match env.reading sensor with
  | some v => decide (t ≤ v)
  | none => false

theorem humidityMatches_ok (env : Env) (t : ℚ) (lst : List String)
    (hparse : ∀ sensor ∈ lst, (env.reading sensor).isSome) :
    humidityMatches env t lst = .ok (lst.filter (humidityPred env t)) := by
  induction lst with
  | nil => rfl
  | cons sensor rest ih =>
    have hs : (env.reading sensor).isSome := hparse sensor (by simp)
    have hrest : ∀ x ∈ rest, (env.reading x).isSome := by
      intro x hx
      exact hparse x (by simp [hx])
    cases hr : env.reading sensor with
    | none => rw [hr] at hs; simp at hs
    | some v =>
      unfold humidityMatches
      rw [hr, ih hrest]
      simp only [List.filter_cons, humidityPred, hr]
      by_cases hv : t ≤ v <;> simp [hv]

theorem humidityMatches_error (env : Env) (t : ℚ) (lst : List String)
    (hbad : ∃ sensor ∈ lst, env.reading sensor = none) :
    ∃ e, humidityMatches env t lst = .error e := by
  induction lst with
  | nil => simp at hbad
  | cons sensor rest ih =>
    unfold humidityMatches
    cases hr : env.reading sensor with
    | none => exact ⟨"ValueError", rfl⟩
    | some v =>
      rcases hbad with ⟨x, hx, hxn⟩
      rcases List.mem_cons.mp hx with hx1 | hx1
      · rw [hx1] at hxn; rw [hxn] at hr; cases hr
      · rcases ih ⟨x, hx1, hxn⟩ with ⟨e, he⟩
        rw [he]
        exact ⟨e, rfl⟩

theorem head?_filter (p : String → Bool) (l : List String) :
    (l.filter p).head? = l.find? p := by
  induction l with
  | nil => rfl
  | cons a t ih =>
    simp only [List.filter_cons, List.find?_cons]
    split <;> simp_all

theorem getLast?_filter (p : String → Bool) (l : List String) :
    (l.filter p).getLast? = l.reverse.find? p := by
  rw [List.getLast?_eq_head?_reverse, ← List.filter_reverse, head?_filter]

theorem illuminanceLoop_blocked (env : Env) (t : ℚ) (lst : List String)
    (hbad : ∃ x ∈ lst, env.reading x = none ∨ ∃ v, env.reading x = some v ∧ t ≤ v) :
    ∀ l, illuminanceLoop env t lst = some l → l.isEmpty = false := by
  induction lst with
  | nil => simp at hbad
  | cons sensor rest ih =>
    intro l hl
    unfold illuminanceLoop at hl
    cases hr : env.reading sensor with
    | none => rw [hr] at hl; cases hl
    | some v =>
      rw [hr] at hl
      rcases hrec : illuminanceLoop env t rest with _ | l2
      · rw [hrec] at hl; cases hl
      · rw [hrec] at hl
        simp only [Option.some.injEq] at hl
        rcases hbad with ⟨x, hx, hcase⟩
        rcases List.mem_cons.mp hx with hx1 | hx1
        · subst hx1
          rcases hcase with hnone | ⟨w, hw, htw⟩
          · rw [hnone] at hr; cases hr
          · rw [hw] at hr
            cases hr
            rw [← hl]
            simp [htw]
        · have h2 := ih ⟨x, hx1, hcase⟩ l2 hrec
          rw [← hl]
          by_cases hv : t ≤ v
          · simp [hv]
          · simpa [hv] using h2

/-- Claim C5: when the off-path runs with some humidity sensor parsing
to a reading ≥ the configured (truthy) threshold, no light command is
issued and the timer is refreshed — `refresh_timer`, which reschedules
at the active profile's delay whenever that delay is nonzero — rather
than cancelled. -/
theorem C5_humidity_block_refreshes_timer (cfg : Config) (env : Env) (s : TState) (t : ℚ)
    (hd : isDisabled env cfg.disable_switch_entity = some false)
    (ht : cfg.humidity_threshold = some t) (ht0 : t ≠ 0)
    (hparse : ∀ sensor ∈ cfg.humidity, (env.reading sensor).isSome)
    (hname : ∀ sensor ∈ cfg.humidity, sensor ≠ "")
    (hb : ∃ sensor ∈ cfg.humidity, ∃ v, env.reading sensor = some v ∧ t ≤ v) :
    lights_off cfg env s = { st := refresh_timer cfg s, cmds := [], err := none } ∧
      (cfg.active.delay ≠ 0 →
        (refresh_timer cfg s).pending =
            (cancel_timer s s.handle).pending ++ [(s.next, cfg.active.delay)] ∧
          (refresh_timer cfg s).handle = some s.next) := by
  have hblk : humidityBlocker cfg env =
      .ok (cfg.humidity.reverse.find? (humidityPred env t)) := by
    unfold humidityBlocker
    rw [ht]
    simp [bne_iff_ne.mpr ht0, humidityMatches_ok env t cfg.humidity hparse,
      getLast?_filter]
  have hsome : (cfg.humidity.reverse.find? (humidityPred env t)).isSome = true := by
    rw [List.find?_isSome]
    rcases hb with ⟨x, hx, v, hv, htv⟩
    exact ⟨x, List.mem_reverse.mpr hx, by simp [humidityPred, hv, htv]⟩
  rcases hfound : cfg.humidity.reverse.find? (humidityPred env t) with _ | b
  · rw [hfound] at hsome; simp at hsome
  · have hbmem : b ∈ cfg.humidity := List.mem_reverse.mp (List.mem_of_find?_eq_some hfound)
    have hbne : b ≠ "" := hname b hbmem
    have htr : truthyS (some b) = true := by
      unfold truthyS
      exact bne_iff_ne.mpr hbne
    constructor
    · unfold lights_off
      rw [hd, hblk, hfound]
      simp [htr]
    · intro hdel
      unfold refresh_timer run_in
      simp [bne_iff_ne.mpr hdel, next_cancel_timer]

/-- Claim C5, witness: threshold 60, readings 70 and 80, delay 150. -/
theorem C5_humidity_block_refreshes_timer_witness :
    lights_off { cfgW with humidity_threshold := some 60 } envW
        { handle := some 0, pending := [(0, 150)], next := 1 } =
      { st := refresh_timer { cfgW with humidity_threshold := some 60 }
          { handle := some 0, pending := [(0, 150)], next := 1 }, cmds := [], err := none } ∧
      (({ cfgW with humidity_threshold := some 60 } : Config).active.delay ≠ 0 →
        (refresh_timer { cfgW with humidity_threshold := some 60 }
            { handle := some 0, pending := [(0, 150)], next := 1 }).pending =
          (cancel_timer { handle := some 0, pending := [(0, 150)], next := 1 } (some 0)).pending
            ++ [(1, ({ cfgW with humidity_threshold := some 60 } : Config).active.delay)] ∧
        (refresh_timer { cfgW with humidity_threshold := some 60 }
            { handle := some 0, pending := [(0, 150)], next := 1 }).handle = some 1) :=
  C5_humidity_block_refreshes_timer { cfgW with humidity_threshold := some 60 } envW
    { handle := some 0, pending := [(0, 150)], next := 1 } 60
    (by decide) rfl (by norm_num) (by decide) (by decide)
    ⟨"sensor.humidity_1", by decide, 70, by decide, by norm_num⟩

/-- Configuration for the C6 counterexample: one humidity sensor whose
reading does not parse, threshold 60, the light on. -/
def cfg6 : Config :=
  { cfgW with humidity_threshold := some 60, humidity := ["sensor.humidity_x"] }

/-- Claim C6, counterexample: with an unparsable humidity reading the
off-path does NOT treat the sensor as a non-match and complete
normally — it aborts with an uncaught `ValueError` (the comprehension
in `lights_off` has no try/except), leaving a light that is on
untouched and the timer neither refreshed nor cancelled. -/
theorem C6_unparsable_humidity_counterexample :
    (lights_off cfg6 envW { handle := some 0, pending := [(0, 150)], next := 1 }).err
        = some ("ValueError") ∧
      (lights_off cfg6 envW { handle := some 0, pending := [(0, 150)], next := 1 }).cmds = [] ∧
      (lights_off cfg6 envW { handle := some 0, pending := [(0, 150)], next := 1 }).st
        = { handle := some 0, pending := [(0, 150)], next := 1 } ∧
      envW.stateOf ("light.x") = some ("on") ∧ ("light.x") ∈ cfg6.lights ∧
      envW.reading ("sensor.humidity_x") = none := by
  refine ⟨by decide, by decide, by decide, by decide, by decide, by decide⟩

/-- Claim C6 as amended: an unparsable humidity reading during off-path
evaluation raises an error that aborts the evaluation — no light is
turned off, the timer is neither refreshed nor cancelled, and the
failure is not retried (the method just terminates abnormally). -/
theorem C6_unparsable_humidity_aborts (cfg : Config) (env : Env) (s : TState) (t : ℚ)
    (hd : isDisabled env cfg.disable_switch_entity = some false)
    (ht : cfg.humidity_threshold = some t) (ht0 : t ≠ 0)
    (hbad : ∃ sensor ∈ cfg.humidity, env.reading sensor = none) :
    (lights_off cfg env s).err.isSome = true ∧ (lights_off cfg env s).cmds = [] ∧
      (lights_off cfg env s).st = s := by
  rcases humidityMatches_error env t cfg.humidity hbad with ⟨e, he⟩
  have hblk : humidityBlocker cfg env = .error e := by
    unfold humidityBlocker
    rw [ht]
    simp [bne_iff_ne.mpr ht0, he]
  unfold lights_off
  rw [hd, hblk]
  exact ⟨rfl, rfl, rfl⟩

/-- Claim C6 as amended, witness. -/
theorem C6_unparsable_humidity_aborts_witness :
    ((lights_off cfg6 envW { handle := some 0, pending := [(0, 150)], next := 1 }).err.isSome = true) ∧
      (lights_off cfg6 envW { handle := some 0, pending := [(0, 150)], next := 1 }).cmds = [] ∧
      (lights_off cfg6 envW { handle := some 0, pending := [(0, 150)], next := 1 }).st
        = { handle := some 0, pending := [(0, 150)], next := 1 } :=
  C6_unparsable_humidity_aborts cfg6 envW _ 60 (by decide) rfl (by norm_num)
    ⟨"sensor.humidity_x", by decide, by decide⟩

/-- Claim C7: during the turn-on path, if any configured illuminance
sensor reading is ≥ the (truthy) threshold, or any reading fails to
parse, the turn-on aborts — no command is issued, no fade task is
launched, no error escapes (the parse failure is caught), and the timer
state is unchanged. -/
theorem C7_illuminance_blocker_aborts_lights_on (cfg : Config) (env : Env) (s : TState)
    (t : ℚ) (ht : cfg.illuminance_threshold = some t) (ht0 : t ≠ 0)
    (hbad : ∃ x ∈ cfg.illuminance,
      env.reading x = none ∨ ∃ v, env.reading x = some v ∧ t ≤ v) :
    lights_on cfg env s = { st := s, cmds := [], err := none } := by
  have hok : illuminanceOk cfg env = false := by
    unfold illuminanceOk
    rw [ht]
    simp only [bne_iff_ne.mpr ht0, if_true]
    rcases hloop : illuminanceLoop env t cfg.illuminance with _ | l
    · rfl
    · exact illuminanceLoop_blocked env t cfg.illuminance hbad l hloop
  unfold lights_on
  rw [hok]
  rfl

/-- Configuration for the C7 witness: an illuminance threshold of 50
with one sensor whose reading does not parse. -/
def cfg7 : Config :=
  { cfgW with illuminance_threshold := some 50, illuminance := ["sensor.illumination_x"] }

/-- Claim C7, witness. -/
theorem C7_illuminance_blocker_aborts_lights_on_witness :
    lights_on cfg7 envW { handle := some 0, pending := [(0, 150)], next := 1 } =
      { st := { handle := some 0, pending := [(0, 150)], next := 1 }, cmds := [], err := none } :=
  C7_illuminance_blocker_aborts_lights_on cfg7 envW _ 50 rfl (by norm_num)
    ⟨"sensor.illumination_x", by decide, Or.inl (by decide)⟩

/-- Configuration for the C8 counterexample: threshold 60 over the two
humidity sensors of `envW`, which read 70 and 80. -/
def cfg8 : Config :=
  { cfgW with humidity_threshold := some 60 }

/-- Claim C8, counterexample: both humidity sensors match, and the code
(`blocker.pop()`) returns the LAST matching sensor in configured order,
not the first as the claim states. -/
theorem C8_last_not_first_counterexample :
    humidityBlocker cfg8 envW = .ok (some ("sensor.humidity_2")) ∧
      cfg8.humidity.find? (humidityPred envW 60) = some ("sensor.humidity_1") ∧
      ("sensor.humidity_2" : String) ≠ "sensor.humidity_1" := by
  refine ⟨by rfl, by decide, by decide⟩

/-- Claim C8 as amended: when the humidity threshold is truthy and all
readings parse, the off-blocker evaluation returns the LAST matching
humidity sensor in the zone's configured sensor order (equivalently,
the first match over the reversed order), or none when no reading
reaches the threshold; any returned sensor is a configured sensor whose
reading is ≥ the threshold. -/
theorem C8_blocker_is_last_match (cfg : Config) (env : Env) (t : ℚ)
    (ht : cfg.humidity_threshold = some t) (ht0 : t ≠ 0)
    (hparse : ∀ sensor ∈ cfg.humidity, (env.reading sensor).isSome) :
    humidityBlocker cfg env = .ok (cfg.humidity.reverse.find? (humidityPred env t)) ∧
      ∀ b, cfg.humidity.reverse.find? (humidityPred env t) = some b →
        b ∈ cfg.humidity ∧ humidityPred env t b = true := by
  constructor
  · unfold humidityBlocker
    rw [ht]
    simp [bne_iff_ne.mpr ht0, humidityMatches_ok env t cfg.humidity hparse,
      getLast?_filter]
  · intro b hb
    exact ⟨List.mem_reverse.mp (List.mem_of_find?_eq_some hb), List.find?_some hb⟩

/-- Claim C8 as amended, witness. -/
theorem C8_blocker_is_last_match_witness :
    (humidityBlocker cfg8 envW = .ok (cfg8.humidity.reverse.find? (humidityPred envW 60)) ∧
      ∀ b, cfg8.humidity.reverse.find? (humidityPred envW 60) = some b →
        b ∈ cfg8.humidity ∧ humidityPred envW 60 b = true) :=
  C8_blocker_is_last_match cfg8 envW 60 rfl (by norm_num) (by decide)

/-- Attribute-loop equivalence: under well-formed attribute parts, the
break-on-first-match loop computes exactly "some attribute condition
matches" (a condition expecting the literal "None" also matches an
absent attribute). -/
theorem evalAttrs_spec (env : Env) (entity : String) (attParts : List (List Char))
    (attrs : List (String × String))
    (h : attParts.map (fun p => (pySplit ',' p).map (fun q => String.mk (pyStrip q))) =
      attrs.map (fun pr => [pr.1, pr.2])) :
    evalAttrs env entity attParts =
      some (attrs.any (fun pr => env.attrOf entity pr.1 == some pr.2 ||
        (env.attrOf entity pr.1 == none && pr.2 == "None"))) := by
  induction attParts generalizing attrs with
  | nil =>
    cases attrs with
    | nil => rfl
    | cons a t => simp at h
  | cons p rest ih =>
    cases attrs with
    | nil => simp at h
    | cons pr prs =>
      simp only [List.map_cons, List.cons.injEq] at h
      obtain ⟨hp, hrest⟩ := h
      unfold evalAttrs
      rw [hp]
      simp only [List.any_cons]
      by_cases hc : (env.attrOf entity pr.1 == some pr.2 ||
          (env.attrOf entity pr.1 == none && pr.2 == "None")) = true
      · simp [hc]
      · simp only [Bool.not_eq_true] at hc
        simp [hc, ih prs hrest]

/-- Claim C9: a disable rule's veto fires iff the entity state equals
the expected state AND (there are no attribute conditions OR some
attribute condition matches, a condition expecting "None" matching an
absent attribute); rules are scanned in order with the first firing
rule short-circuiting, and a firing rule list makes both the motion
(on) path and the off path return with no command, no state change and
no timer action. -/
theorem C9_disable_rule_semantics (env : Env) (confLine : String)
    (part0 : List Char) (attParts : List (List Char)) (entity disableStat : String)
    (attrs : List (String × String))
    (h0 : pySplit ';' confLine.data = part0 :: attParts)
    (h1 : (pySplit ',' part0).map (fun p => String.mk (pyStrip p)) = [entity, disableStat])
    (h2 : attParts.map (fun p => (pySplit ',' p).map (fun q => String.mk (pyStrip q))) =
      attrs.map (fun pr => [pr.1, pr.2])) :
    eval_disable_switch_conf env confLine =
      some ((env.stateOf entity == some disableStat) &&
        (attrs.isEmpty || attrs.any (fun pr => env.attrOf entity pr.1 == some pr.2 ||
          (env.attrOf entity pr.1 == none && pr.2 == "None")))) ∧
      (∀ line rest, eval_disable_switch_conf env line = some true →
        isDisabled env (line :: rest) = some true) ∧
      (∀ cfg s, isDisabled env cfg.disable_switch_entity = some true →
        motion_event cfg env ("xiaomi_aqara.motion") s = { st := s, cmds := [], err := none } ∧
          lights_off cfg env s = { st := s, cmds := [], err := none }) := by
  refine ⟨?_, ?_, ?_⟩
  · unfold eval_disable_switch_conf
    rw [h0]
    simp only [List.headD_cons, List.tail_cons]
    rw [h1]
    by_cases hst : (env.stateOf entity == some disableStat) = true
    · simp only [hst, Bool.true_and, if_true]
      cases hap : attParts with
      | nil =>
        have ha : attrs = [] := by
          cases attrs with
          | nil => rfl
          | cons x xs => rw [hap] at h2; simp at h2
        subst ha
        simp
      | cons p rest =>
        have ha : attrs ≠ [] := by
          intro hcontra
          rw [hcontra, hap] at h2
          simp at h2
        rw [← hap]
        rw [evalAttrs_spec env entity attParts attrs h2]
        simp [hap, List.isEmpty_eq_true, ha]
    · simp only [Bool.not_eq_true] at hst
      simp [hst]
  · intro line rest hline
    unfold isDisabled
    rw [hline]
  · intro cfg s hdis
    constructor
    · unfold motion_event motion_event_core
      rw [hdis]
    · unfold lights_off
      rw [hdis]

/-- Claim C9, witness: the spec's own example rule. -/
theorem C9_disable_rule_semantics_witness :
    eval_disable_switch_conf envW ("switch.guard, on") = some true ∧
      isDisabled envW ["switch.guard, on"] = some true := by
  have h := C9_disable_rule_semantics envW ("switch.guard, on")
    ("switch.guard, on").data [] ("switch.guard") ("on") [] (by decide) (by decide) rfl
  refine ⟨?_, ?_⟩
  · rw [h.1]; decide
  · exact h.2.1 ("switch.guard, on") [] (by rw [h.1]; decide)

/-- `lights_off` only reads the listed configuration fields. -/
theorem lights_off_congr (cfgA cfgB : Config) (env : Env) (s : TState)
    (hl : cfgA.lights = cfgB.lights) (hh : cfgA.humidity = cfgB.humidity)
    (hht : cfgA.humidity_threshold = cfgB.humidity_threshold)
    (hd : cfgA.disable_switch_entity = cfgB.disable_switch_entity)
    (hf : cfgA.fade_off = cfgB.fade_off) (ha : cfgA.active = cfgB.active) :
    lights_off cfgA env s = lights_off cfgB env s := by
  unfold lights_off humidityBlocker refresh_timer run_in
  rw [hl, hh, hht, hd, hf, ha]

/-- Claim C10 (implicit): a threshold configured as the number 0 is
falsy in the Python guards, so it disables the blocker family exactly
as an absent threshold does — `lights_on` with illuminance threshold 0
behaves identically to no threshold (no illuminance evaluation, never
blocks), and `lights_off` with humidity threshold 0 behaves identically
to no threshold. -/
theorem C10_zero_threshold_disables_blockers (cfg : Config) (env : Env) (s : TState) :
    lights_on { cfg with illuminance_threshold := some 0 } env s =
        lights_on { cfg with illuminance_threshold := none } env s ∧
      lights_off { cfg with humidity_threshold := some 0 } env s =
        lights_off { cfg with humidity_threshold := none } env s := by
  constructor
  · unfold lights_on
    have hok : illuminanceOk { cfg with illuminance_threshold := some 0 } env = true := by
      simp [illuminanceOk]
    have hok2 : illuminanceOk { cfg with illuminance_threshold := none } env = true := rfl
    rw [hok, hok2]
    rw [lights_off_congr { cfg with illuminance_threshold := some 0 }
      { cfg with illuminance_threshold := none } env s rfl rfl rfl rfl rfl rfl]
  · rfl
